import Mathlib

/-!
Verification of the BetterSiri browser-agent worker
(src/BetterSiri/Sources/Resources/BrowserAgent/browser_use_worker.py).

The development shallowly embeds the worker's pure logic and state
machinery in Lean:

* the action sanitizer (`_normalize_send_keys_token`, `_sanitize_actions`),
* the worker state and the command handlers (`handle_run_task`,
  `handle_stop`, `handle_pause`, `handle_resume`, `handle_open_browser`,
  `_ensure_browser`),
* the background run `_run_agent` (its event emission, re-raise and
  cleanup behaviour, parameterised by the outcome of the external
  browser-automation calls),
* the stdin dispatcher loop of `main`, with the external JSON decoder
  and the handler table abstracted as function parameters,
* the step-boundary callbacks `on_step_start` / `on_step_end`.

Machine-level Python details that no verified property depends on are
noted next to each definition.
-/

/-- Whitespace characters stripped by Python `str.strip()`. -/
def py_whitespace (c : Char) : Bool :=
  c == ' ' || c == '\t' || c == '\n' || c == '\r' || c == '\x0b' || c == '\x0c'

/-- Python `str.strip()` with no arguments: drop leading and trailing
whitespace.  (Implemented over the character list so that it is fully
kernel-reducible.) -/
def pystrip (s : String) : String :=
  String.mk (((s.data.dropWhile py_whitespace).reverse.dropWhile py_whitespace).reverse)

/-- ASCII lower-casing of one character, as Python `str.lower()` does
on the ASCII inputs the worker handles. -/
def pyLowerChar (c : Char) : Char :=
  if 65 ≤ c.toNat && c.toNat ≤ 90 then Char.ofNat (c.toNat + 32) else c

/-- Python `str.lower()` (restricted to ASCII case mapping). -/
def pylower (s : String) : String :=
  String.mk (s.data.map pyLowerChar)

/-- Split accumulator for `pysplit_plus`: `acc` holds the reversed
characters of the current piece. -/
def pysplitPlusAux : List Char → List Char → List String
  | [], acc => [String.mk acc.reverse]
  | '+' :: rest, acc => String.mk acc.reverse :: pysplitPlusAux rest []
  | c :: rest, acc => pysplitPlusAux rest (c :: acc)

/-- Python `str.split("+")`, the separator used by the token
normalizer. -/
def pysplit_plus (s : String) : List String :=
  pysplitPlusAux s.data []

/-- Membership of a character in a string, as Python `in` on one-char
needles. -/
def pycontains (s : String) (c : Char) : Bool :=
  s.data.contains c

/-- Value of a decimal digit list, `none` if any character is not a
digit. -/
def digitsValAux : Nat → List Char → Option Nat
  | acc, [] => some acc
  | acc, c :: cs =>
    if 48 ≤ c.toNat && c.toNat ≤ 57 then digitsValAux (acc * 10 + (c.toNat - 48)) cs
    else none

/-- Python `int()` applied to a string: optional surrounding
whitespace, optional sign, decimal digits; anything else raises
(modelled as `none`).  Digit-group underscores are not modelled; no
verified claim exercises them. -/
def pyIntOfString (s : String) : Option Int :=
  match (pystrip s).data with
  | [] => none
  | '-' :: ds =>
    if ds.isEmpty then none else (digitsValAux 0 ds).map (fun n => -(n : Int))
  | '+' :: ds =>
    if ds.isEmpty then none else (digitsValAux 0 ds).map (fun n => (n : Int))
  | ds => (digitsValAux 0 ds).map (fun n => (n : Int))

/-- Minimal JSON value model mirroring the Python objects that
`json.loads` produces and the worker manipulates. -/
inductive JVal where
  | jnull : JVal
  | jbool : Bool → JVal
  | jnum : Int → JVal
  | jstr : String → JVal
  | jarr : List JVal → JVal
  | jobj : List (String × JVal) → JVal

mutual

/-- Python `repr` of a JSON-shaped value, as used by `str()` on
containers.  String escaping inside nested reprs is not modelled; no
verified claim exercises it. -/
def pyRepr : JVal → String
  | .jnull => "None"
  | .jbool true => "True"
  | .jbool false => "False"
  | .jnum n => toString n
  | .jstr s => "'" ++ s ++ "'"
  | .jarr xs => "[" ++ pyReprList xs ++ "]"
  | .jobj fs => "\x7b" ++ pyReprFields fs ++ "\x7d"

/-- Comma-joined reprs of the elements of a Python list. -/
def pyReprList : List JVal → String
  | [] => ""
  | [x] => pyRepr x
  | x :: xs => pyRepr x ++ ", " ++ pyReprList xs

/-- Comma-joined reprs of the entries of a Python dict. -/
def pyReprFields : List (String × JVal) → String
  | [] => ""
  | [kv] => "'" ++ kv.1 ++ "': " ++ pyRepr kv.2
  | kv :: xs => "'" ++ kv.1 ++ "': " ++ pyRepr kv.2 ++ ", " ++ pyReprFields xs

end

/-- Python `str()` of a JSON-shaped value: a string is returned as-is,
anything else falls back to its repr. -/
def pyStr : JVal → String
  | .jstr s => s
  | v => pyRepr v

/-- Python truthiness of a JSON-shaped value. -/
def pyTruthy : JVal → Bool
  | .jnull => false
  | .jbool b => b
  | .jnum n => n != 0
  | .jstr s => s != ""
  | .jarr xs => !xs.isEmpty
  | .jobj fs => !fs.isEmpty

/-- Python `dict.get` on the field list of a JSON object. -/
def jlookup (fs : List (String × JVal)) (k : String) : Option JVal :=
  (fs.find? (fun kv => kv.1 == k)).map (fun kv => kv.2)

/-- Python `int()` applied to a JSON-shaped value, as in the
`max_steps` coercion: numbers pass through, booleans become 0/1,
numeric strings parse, everything else raises (modelled as `none`). -/
def pyInt : JVal → Option Int
  | .jnum n => some n
  | .jbool b => some (if b then 1 else 0)
  | .jstr s => pyIntOfString s
  | _ => none

/-- An optional string rendered as a JSON value (`None` becomes null). -/
def jopt : Option String → JVal
  | none => .jnull
  | some s => .jstr s

/-- One outgoing line of the worker: the uniform
`(id, type, payload)` envelope written by `_write`. -/
structure Envelope where
  eid : Option String
  etype : String
  payload : JVal

/-! ### Action sanitizer

Embedding of `_normalize_send_keys_token` (worker lines 51-118) and the
closure `_sanitize_actions` (lines 589-658).
-/

/-- Lookup in the `simple_map` dictionary of
`_normalize_send_keys_token` (lines 66-86). -/
def simple_map_lookup : String → Option String
  | "enter" => some "Enter"
  | "return" => some "Enter"
  | "tab" => some "Tab"
  | "escape" => some "Escape"
  | "esc" => some "Escape"
  | "backspace" => some "Backspace"
  | "delete" => some "Delete"
  | "space" => some "Space"
  | "pagedown" => some "PageDown"
  | "pageup" => some "PageUp"
  | "arrowup" => some "ArrowUp"
  | "arrowdown" => some "ArrowDown"
  | "arrowleft" => some "ArrowLeft"
  | "arrowright" => some "ArrowRight"
  | "home" => some "Home"
  | "end" => some "End"
  | _ => none

/-- Step of the modifier-classification loop of
`_normalize_send_keys_token` (lines 96-107): accumulate recognized
modifiers in order, the last non-modifier part becomes the key. -/
def classify_part (acc : List String × Option String) (part : String) :
    List String × Option String :=
  let pl := pylower part
  if pl == "ctrl" || pl == "control" then (acc.1 ++ ["Control"], acc.2)
  else if pl == "cmd" || pl == "command" || pl == "meta" then (acc.1 ++ ["Meta"], acc.2)
  else if pl == "alt" || pl == "option" then (acc.1 ++ ["Alt"], acc.2)
  else if pl == "shift" then (acc.1 ++ ["Shift"], acc.2)
  else (acc.1, some part)

/-- Embedding of `_normalize_send_keys_token` (lines 51-118): map an
`Enter`-style placeholder to a `send_keys` value, or `none` when the
token is unrecognized. -/
def normalize_send_keys_token (token : String) : Option String :=
  let t := pystrip token
  if t = "" then none
  else
    let lower := pylower t
    match simple_map_lookup lower with
    | some v => some v
    | none =>
      if pycontains t '+' then
        let parts := (pysplit_plus t).filterMap
          (fun p => let q := pystrip p; if q = "" then none else some q)
        if parts.isEmpty then none
        else
          let acc := parts.foldl classify_part ([], none)
          match acc.2 with
          | none => none
          | some k =>
            let key := if k.length = 1 then pylower k else k
            some (String.intercalate "+" (acc.1 ++ [key]))
      else none

/-- Payload of a browser-use `input` (typed text) action as dumped by
`model_dump`: target element index, text, and the optional
clear-existing-value flag.  The index is copied opaquely by the
sanitizer; it is typed here as an optional integer. -/
structure InputPayload where
  index : Option Int
  text : String
  clear : Option Bool
deriving DecidableEq

/-- A planned browser-use action as seen by `_sanitize_actions`.  An
action whose dump fails, has no dict `input` payload, or has a
non-string `text` is never rewritten; all such actions are collapsed
into the `otherAction` constructor, which the sanitizer passes through
unchanged exactly as the source does. -/
inductive BUAction where
  | inputText : InputPayload → BUAction
  | send_keys : String → BUAction
  | otherAction : BUAction
deriving DecidableEq

/-- A piece of the scanned text: a literal span between token matches,
or the body of one `\x7b...\x7d` token match. -/
inductive Seg where
  | lit : String → Seg
  | tok : String → Seg
deriving DecidableEq

/-- Whether a scanned segment is a token match. -/
def Seg.isTok : Seg → Bool
  | .lit _ => false
  | .tok _ => true

/-- Fuelled scanner reproducing
`_SPECIAL_KEY_PATTERN.finditer(raw_text)` for the pattern
`\x7b([^\x7b\x7d]+)\x7d` (line 48): leftmost non-overlapping matches.
`acc` holds the reversed characters of the literal span accumulated
since the last match.  One character is consumed per recursive call, so
fuel equal to the text length suffices; the fuel-exhausted equation is
never reached on such calls. -/
def scanAux : Nat → List Char → List Char → List Seg
  | 0, cs, acc => [Seg.lit (String.mk (acc.reverse ++ cs))]
  | _ + 1, [], acc => [Seg.lit (String.mk acc.reverse)]
  | n + 1, '{' :: rest, acc =>
    let body := rest.takeWhile (fun c => c != '{' && c != '}')
    let rest1 := rest.dropWhile (fun c => c != '{' && c != '}')
    match rest1 with
    | '}' :: rest2 =>
      if body.isEmpty then
        scanAux n rest2 ('}' :: '{' :: acc)
      else
        Seg.lit (String.mk acc.reverse) :: Seg.tok (String.mk body) :: scanAux n rest2 []
    | _ =>
      scanAux n rest1 (body.reverse ++ '{' :: acc)
  | n + 1, c :: rest, acc => scanAux n rest (c :: acc)

/-- Scan a text into the alternation of literal spans and token bodies
that the match-walking loop of `_sanitize_actions` traverses: the list
always starts and ends with a (possibly empty) literal, matching the
prefix/suffix cursor arithmetic of lines 617-653. -/
def scanSegs (s : String) : List Seg :=
  scanAux s.length s.data []

/-- Per-action rewriting loop of `_sanitize_actions` (lines 617-656)
over the scanned segments.  `typed` is the `has_typed_anything` flag;
`orig` is the original action, re-emitted verbatim when the suffix is
empty and nothing was emitted (line 655-656). -/
def emitForSegs (orig : BUAction) (index : Option Int) (clearV : Option Bool) :
    Bool → List Seg → List BUAction
  | _, [] => []
  | typed, [Seg.lit s] =>
    if s = "" then (if typed then [] else [orig])
    else [BUAction.inputText ⟨index, s, none⟩]
  | typed, Seg.lit s :: rest =>
    if s = "" then emitForSegs orig index clearV typed rest
    else
      BUAction.inputText ⟨index, s, if !typed && clearV.isSome then clearV else none⟩ ::
        emitForSegs orig index clearV true rest
  | typed, Seg.tok t :: rest =>
    match normalize_send_keys_token t with
    | none =>
      BUAction.inputText
          ⟨index, "\x7b" ++ t ++ "\x7d",
            if !typed && clearV.isSome then clearV else none⟩ ::
        emitForSegs orig index clearV true rest
    | some k =>
      if typed then
        BUAction.send_keys k :: emitForSegs orig index clearV typed rest
      else
        BUAction.inputText ⟨index, "", if clearV.isSome then clearV else none⟩ ::
          BUAction.send_keys k :: emitForSegs orig index clearV true rest

/-- Rewriting of one planned action by `_sanitize_actions` (lines
591-656): an `input` action whose text contains at least one
recognized-shape token match is expanded; everything else passes
through unchanged. -/
def sanitizeOne (a : BUAction) : List BUAction :=
  match a with
  | BUAction.inputText p =>
    if pycontains p.text '{' && pycontains p.text '}' then
      let segs := scanSegs p.text
      if segs.any Seg.isTok then emitForSegs a p.index p.clear false segs
      else [a]
    else [a]
  | a => [a]

/-- Embedding of the closure `_sanitize_actions` (lines 589-658):
rewrite a list of planned actions, expanding embedded key placeholders
into typing and key-press actions. -/
def sanitize_actions (actions : List BUAction) : List BUAction :=
  actions.flatMap sanitizeOne

/-! ### Worker state and the task controller

Embedding of `WorkerState` (lines 33-45) and the handlers
`handle_run_task` (701-765), `handle_stop` (948-954), `handle_pause`
(930-936), `handle_resume` (939-945), together with the background run
`_run_agent` (395-698).
-/

/-- The handle of one scheduled background run: the `asyncio.Task`
stored in `STATE.run_task`, as far as the worker inspects it
(`done()`, `cancel()`), tagged with its run id. -/
structure RunHandle where
  run_id : String
  finished : Bool
  cancel_requested : Bool
deriving DecidableEq

/-- The process-wide `WorkerState`.  The external `browser` and
`agent` objects are tracked as presence booleans: the worker only ever
tests them against `None`, calls into them (external effects), or
replaces them. -/
structure WorkerSt where
  browser : Bool
  agent : Bool
  run_task : Option RunHandle
  current_run_id : Option String
  browser_user_data_dir : Option String
  chrome_executable_path : Option String
  chrome_args : List String
  profile_directory : Option String
deriving DecidableEq

/-- The freshly constructed `WorkerState()` singleton (line 45). -/
def worker_state_init : WorkerSt :=
  { browser := false, agent := false, run_task := none, current_run_id := none,
    browser_user_data_dir := none, chrome_executable_path := none,
    chrome_args := [], profile_directory := none }

/-- The `STATE.run_task is not None and not STATE.run_task.done()`
test of lines 702 and 950. -/
def run_task_active (st : WorkerSt) : Bool :=
  match st.run_task with
  | some h => !h.finished
  | none => false

/-- The configuration captured by `handle_run_task` and passed to the
scheduled `_run_agent` call (lines 752-765). -/
structure RunSpec where
  run_id : String
  task : String
  max_steps : Option Int
  use_browser_use_llm : Bool
  browser_use_model : Option String
  openai_api_key : Option String
  openai_base_url : Option String
  openai_model : Option String
  headless : Bool
  window_size : Option JVal

/-- Optional-string payload fields of `handle_run_task`: a value that
is not a string becomes `None`, a string is stripped and an empty
result becomes `None` (lines 725-747). -/
def strip_or_none (v : Option JVal) : Option String :=
  match v with
  | some (.jstr s) => (let t := pystrip s; if t = "" then none else some t)
  | _ => none

/-- Busy rejection envelope of `handle_run_task` (lines 703-709). -/
def busy_envelope (cmd_id : String) : Envelope :=
  ⟨some cmd_id, "run_task.error", .jobj [("message", .jstr "A browser task is already running")]⟩

/-- Missing-task rejection envelope of `handle_run_task` (line 714). -/
def missing_task_envelope (cmd_id : String) : Envelope :=
  ⟨some cmd_id, "run_task.error", .jobj [("message", .jstr "Missing task")]⟩

/-- The `str(payload.get("task", "")).strip()` extraction
(line 712). -/
def extract_task (payload : List (String × JVal)) : String :=
  pystrip (pyStr ((jlookup payload "task").getD (.jstr "")))

/-- Embedding of `handle_run_task` (lines 701-765).  The result is the
new worker state, the envelopes the handler writes, and the background
run scheduled with `asyncio.create_task` (not yet executed: the
handler returns as soon as the task is created). -/
def handle_run_task (st : WorkerSt) (cmd_id : String) (payload : List (String × JVal)) :
    WorkerSt × List Envelope × Option RunSpec :=
  if run_task_active st then (st, [busy_envelope cmd_id], none)
  else
    let task := extract_task payload
    if task = "" then (st, [missing_task_envelope cmd_id], none)
    else
      let max_steps := match jlookup payload "max_steps" with
        | none => none
        | some v => pyInt v
      let spec : RunSpec :=
        { run_id := cmd_id
          task := task
          max_steps := max_steps
          use_browser_use_llm := pyTruthy ((jlookup payload "use_browser_use_llm").getD (.jbool true))
          browser_use_model := strip_or_none (jlookup payload "browser_use_model")
          openai_api_key := strip_or_none (jlookup payload "openai_api_key")
          openai_base_url := strip_or_none (jlookup payload "openai_base_url")
          openai_model := strip_or_none (jlookup payload "openai_model")
          headless := pyTruthy ((jlookup payload "headless").getD (.jbool false))
          window_size := jlookup payload "window_size" }
      ({st with current_run_id := some cmd_id,
                run_task := some ⟨cmd_id, false, false⟩},
       [], some spec)

/-- The `started` stream event emitted by `_run_agent` once the agent
is built (line 667). -/
def started_envelope (run_id : String) : Envelope :=
  ⟨some run_id, "run_task.event", .jobj [("event", .jstr "started")]⟩

/-- Success terminal envelope of `_run_agent` (line 685). -/
def run_ok_envelope (run_id output : String) : Envelope :=
  ⟨some run_id, "run_task.ok", .jobj [("output", .jstr output)]⟩

/-- Failure terminal envelope of `_run_agent` (lines 689-696). -/
def run_failed_envelope (run_id tb : String) : Envelope :=
  ⟨some run_id, "run_task.error",
    .jobj [("message", .jstr "Browser task failed"), ("traceback", .jstr tb)]⟩

/-- Cancellation terminal envelope of `_run_agent` (line 687). -/
def cancelled_envelope (run_id : String) : Envelope :=
  ⟨some run_id, "run_task.cancelled", .jobj [("status", .jstr "cancelled")]⟩

/-- Outcome of the external calls made by one `_run_agent` execution:
the setup (imports, LLM configuration, `_ensure_browser`) may raise or
observe cancellation before the `started` event; after `started`,
`agent.run` may succeed, raise, or observe cancellation.  `tb` carries
the `traceback.format_exc()` text of a failure. -/
inductive RunOutcome where
  | setup_failure : String → RunOutcome
  | cancelled_in_setup : RunOutcome
  | success : String → RunOutcome
  | run_failure : String → RunOutcome
  | cancelled_in_run : RunOutcome

/-- The envelopes `_run_agent` writes (lines 408-698), per outcome:
the try body emits `started` and, on success, `run_task.ok`; the
`except asyncio.CancelledError` arm emits `run_task.cancelled`; the
generic `except` arm emits `run_task.error`.  Step events are modelled
separately by the step callbacks. -/
def run_agent_emits (run_id : String) : RunOutcome → List Envelope
  | .setup_failure tb => [run_failed_envelope run_id tb]
  | .cancelled_in_setup => [cancelled_envelope run_id]
  | .success output => [started_envelope run_id, run_ok_envelope run_id output]
  | .run_failure tb => [started_envelope run_id, run_failed_envelope run_id tb]
  | .cancelled_in_run => [started_envelope run_id, cancelled_envelope run_id]

/-- Whether `_run_agent` lets the exception escape: the
`CancelledError` arm re-raises (line 688); the generic arm and the
success path return normally. -/
def run_agent_reraises : RunOutcome → Bool
  | .cancelled_in_setup => true
  | .cancelled_in_run => true
  | _ => false

/-- Completion of the scheduled background run: the `finally` block
clears `STATE.agent` (line 698) in every outcome, the `asyncio.Task`
becomes done, and the outcome-dependent envelopes have been
written. -/
def drive_run (st : WorkerSt) (run_id : String) (o : RunOutcome) :
    WorkerSt × List Envelope :=
  ({st with agent := false,
            run_task := st.run_task.map (fun h => {h with finished := true})},
   run_agent_emits run_id o)

/-- Rate envelope payload shared by the ok acknowledgments. -/
def status_ok_payload : JVal := .jobj [("status", .jstr "ok")]

/-- Embedding of `handle_stop` (lines 948-954): request cooperative
cancellation of a non-finished run task, then acknowledge.  The
external `Task.cancel()` call is recorded on the handle. -/
def handle_stop (st : WorkerSt) (cmd_id : String) : WorkerSt × List Envelope :=
  match st.run_task with
  | some h =>
    if !h.finished then
      ({st with run_task := some {h with cancel_requested := true}},
       [⟨some cmd_id, "stop.ok", status_ok_payload⟩])
    else (st, [⟨some cmd_id, "stop.ok", status_ok_payload⟩])
  | none => (st, [⟨some cmd_id, "stop.ok", status_ok_payload⟩])

/-- Embedding of `handle_pause` (lines 930-936): forward to
`agent.pause()` when an agent is active (external effect, assumed not
to raise) and acknowledge. -/
def handle_pause (st : WorkerSt) (cmd_id : String) : WorkerSt × List Envelope :=
  (st, [⟨some cmd_id, "pause.ok", status_ok_payload⟩])

/-- Embedding of `handle_resume` (lines 939-945), symmetric to
`handle_pause`. -/
def handle_resume (st : WorkerSt) (cmd_id : String) : WorkerSt × List Envelope :=
  (st, [⟨some cmd_id, "resume.ok", status_ok_payload⟩])

/-! ### Session manager: `handle_open_browser` and `_ensure_browser`

Embedding of lines 191-200 (`_normalize_chrome_args`), 268-357
(`_ensure_browser`) and 360-392 (`handle_open_browser`).  The external
engine (`browser_use.Browser`), the environment variable and the
well-known installation paths are abstracted as parameters.
-/

/-- Embedding of `_normalize_chrome_args` (lines 191-200): a non-list
becomes `[]`; string items are stripped and kept when non-empty,
non-string items are dropped. -/
def normalize_chrome_args (v : Option JVal) : List String :=
  match v with
  | some (.jarr xs) =>
    xs.filterMap (fun x =>
      match x with
      | .jstr s => (let t := pystrip s; if t = "" then none else some t)
      | _ => none)
  | _ => []

/-- Outcome of the layered `Browser(**kwargs)` construction plus
`browser.start()` in `_ensure_browser`: construction (or the profile
lock check) may raise before the handle is stored (lines 294, 326-349),
or the handle is stored (lines 351-353) and `start()` then succeeds or
raises (line 356). -/
inductive CreationOutcome where
  | failed_before_store : CreationOutcome
  | stored_then_start_failed : CreationOutcome
  | ok : CreationOutcome

/-- External circumstances consulted by `_ensure_browser`: whether an
existing browser handle passes the `get_pages()` liveness probe (lines
274-279), the `BROWSER_USE_CHROME_PATH` environment value, the first
hit among the well-known installation paths
(`_default_chrome_executable_path`, lines 175-188), and how
construction plus start turns out. -/
structure EnsureEnv where
  browser_alive : Bool
  env_path : Option String
  default_path : Option String
  creation : CreationOutcome

/-- Embedding of `_ensure_browser` (lines 268-357) restricted to its
effect on `WorkerState` plus a success flag for the caller.  A live
existing handle is reused unchanged; a dead handle is killed and
cleared before creation; creation resolves the executable path as
`STATE.chrome_executable_path or env or default` and stores handle,
profile directory and resolved path before `start()`. -/
def ensure_browser (st : WorkerSt) (user_data_dir : Option String) (E : EnsureEnv) :
    WorkerSt × Bool :=
  if st.browser && E.browser_alive then (st, true)
  else
    let st0 := if st.browser then
        {st with browser := false, browser_user_data_dir := none}
      else st
    let resolved := (st0.chrome_executable_path.orElse (fun _ => E.env_path)).orElse
      (fun _ => E.default_path)
    match E.creation with
    | .failed_before_store => (st0, false)
    | .stored_then_start_failed =>
      ({st0 with browser := true, browser_user_data_dir := user_data_dir,
                 chrome_executable_path := resolved}, false)
    | .ok =>
      ({st0 with browser := true, browser_user_data_dir := user_data_dir,
                 chrome_executable_path := resolved}, true)

/-- Success acknowledgment of `handle_open_browser` (line 381). -/
def open_browser_ok_envelope (cmd_id : String) : Envelope :=
  ⟨some cmd_id, "open_browser.ok", status_ok_payload⟩

/-- Failure envelope of `handle_open_browser` (lines 382-392); the
message and traceback text depend on the external exception and are
abstracted by `tb`. -/
def open_browser_error_envelope (cmd_id tb : String) : Envelope :=
  ⟨some cmd_id, "open_browser.error",
    .jobj [("message", .jstr "Failed to open browser"), ("traceback", .jstr tb)]⟩

/-- The `STATE.chrome_executable_path` update of lines 369-370: only a
truthy (non-empty) executable path overrides the stored one.  The
payload field is modelled as string-or-absent (the worker stores it
opaquely; no claim involves non-string values for it). -/
def apply_cep_update (st : WorkerSt) (v : Option JVal) : WorkerSt :=
  match v with
  | some (.jstr s) => if s ≠ "" then {st with chrome_executable_path := some s} else st
  | _ => st

/-- The `STATE.chrome_args` replacement of lines 371-374: the
normalized list if non-empty, else the empty list. -/
def apply_args_update (st : WorkerSt) (args : List String) : WorkerSt :=
  if !args.isEmpty then {st with chrome_args := args}
  else {st with chrome_args := []}

/-- The `STATE.profile_directory` replacement of lines 375-378. -/
def apply_pd_update (st : WorkerSt) (v : Option JVal) : WorkerSt :=
  match v with
  | some (.jstr s) =>
    if s ≠ "" && pystrip s ≠ "" then {st with profile_directory := some (pystrip s)}
    else {st with profile_directory := none}
  | _ => {st with profile_directory := none}

/-- The three updates in source order (lines 369-378). -/
def open_browser_config_update (st : WorkerSt) (payload : List (String × JVal)) : WorkerSt :=
  apply_pd_update
    (apply_args_update
      (apply_cep_update st (jlookup payload "chrome_executable_path"))
      (normalize_chrome_args (jlookup payload "chrome_args")))
    (jlookup payload "profile_directory")

/-- Embedding of `handle_open_browser` (lines 360-392): the session
configuration updates of lines 362-378 followed by `_ensure_browser`.
The `user_data_dir` payload field is modelled as string-or-absent. -/
def handle_open_browser (st : WorkerSt) (cmd_id : String)
    (payload : List (String × JVal)) (E : EnsureEnv) (tb : String) :
    WorkerSt × List Envelope :=
  let user_data_dir := match jlookup payload "user_data_dir" with
    | some (.jstr s) => some s
    | _ => none
  let r := ensure_browser (open_browser_config_update st payload) user_data_dir E
  (r.1, [if r.2 then open_browser_ok_envelope cmd_id else open_browser_error_envelope cmd_id tb])

/-! ### Protocol dispatcher: the `main` read loop

Embedding of lines 1041-1084.  The input is modelled from the decoded
text of each line onward (the bytes `readline` / UTF-8 stage is not
modelled); `json.loads` is abstracted as a `parse` parameter returning
`none` on decode failure, and the registered handlers as an `hexec`
parameter returning the envelopes a handler writes plus an optional
traceback when it raises.
-/

/-- The process-level decode-failure envelope `_err(None, "Invalid
JSON")` (lines 26-30, 1063). -/
def invalid_json_envelope : Envelope :=
  ⟨none, "error", .jobj [("message", .jstr "Invalid JSON")]⟩

/-- The unknown-command envelope of lines 1070-1078; the message
interpolates `str(cmd_type)`. -/
def unknown_command_envelope (cmd_id : String) (cmd_type : Option JVal) : Envelope :=
  ⟨if cmd_id = "" then none else some cmd_id, "error",
    .jobj [("message", .jstr ("Unknown command: " ++ pyStr (cmd_type.getD .jnull)))]⟩

/-- The handler-fault envelope `_err(cmd_id or None, "Handler
crashed", tb)` (line 1083). -/
def handler_crashed_envelope (cmd_id tb : String) : Envelope :=
  ⟨if cmd_id = "" then none else some cmd_id, "error",
    .jobj [("message", .jstr "Handler crashed"), ("traceback", .jstr tb)]⟩

/-- Keys of the `HANDLERS` table (lines 1028-1038). -/
def handler_names : List String :=
  ["open_browser", "run_task", "get_tab_context", "read_tab_text",
   "pause", "resume", "stop", "close_browser", "close_all_windows"]

/-- The `str(msg.get("id")) if msg.get("id") is not None else ""`
coercion of line 1066. -/
def extract_cmd_id (fs : List (String × JVal)) : String :=
  match jlookup fs "id" with
  | none => ""
  | some .jnull => ""
  | some v => pyStr v

/-- Processing of one decoded input line by the `main` loop (lines
1054-1083): strip, skip blanks, JSON-decode (error envelope and
continue on failure), then extract id/type/payload and dispatch.
Returns `none` when the line makes the loop itself raise — which
happens when the decoded JSON value is not an object, since the
`msg.get` calls of line 1066 sit outside any try block — so the read
loop terminates. -/
def dispatch_line (parse : String → Option JVal)
    (hexec : String → String → JVal → List Envelope × Option String)
    (line : String) : Option (List Envelope) :=
  let l := pystrip line
  if l = "" then some []
  else
    match parse l with
    | none => some [invalid_json_envelope]
    | some (.jobj fs) =>
      let cmd_id := extract_cmd_id fs
      let payloadv := match jlookup fs "payload" with
        | some v => if pyTruthy v then v else .jobj []
        | none => .jobj []
      match jlookup fs "type" with
      | some (.jstr s) =>
        if s ≠ "" && handler_names.contains s then
          match hexec s cmd_id payloadv with
          | (evs, none) => some evs
          | (evs, some tb) => some (evs ++ [handler_crashed_envelope cmd_id tb])
        else some [unknown_command_envelope cmd_id (some (.jstr s))]
      | ct => some [unknown_command_envelope cmd_id ct]
    | some _ => none

/-- The whole read loop over a list of decoded input lines: envelopes
accumulate in order; a line on which the loop raises stops all further
processing (the process exits via the uncaught exception). -/
def dispatch_lines (parse : String → Option JVal)
    (hexec : String → String → JVal → List Envelope × Option String) :
    List String → List Envelope
  | [] => []
  | l :: rest =>
    match dispatch_line parse hexec l with
    | some evs => evs ++ dispatch_lines parse hexec rest
    | none => []

/-! ### Command-level cooperative scheduling

A command-granularity view of the same loop, used to state the
non-blocking property of `run_task`: `await HANDLERS[cmd_type](...)`
runs the handler to completion, but `handle_run_task` only *creates*
the background task (line 752) and returns, so the loop reads the next
line with the run still pending; the run's own envelopes appear only
when the scheduled `_run_agent` unit is separately driven
(`drive_run`).
-/

/-- The commands whose handlers the scheduling model runs concretely. -/
inductive WCmd where
  | run_task_cmd : List (String × JVal) → WCmd
  | stop_cmd : WCmd
  | pause_cmd : WCmd
  | resume_cmd : WCmd

/-- Dispatch of one command to its handler, as the `main` loop does
(line 1081), returning the handler's state update, the envelopes it
writes, and the background run it schedules (only `run_task` schedules
one). -/
def dispatch_step (st : WorkerSt) (cmd_id : String) :
    WCmd → WorkerSt × List Envelope × Option RunSpec
  | .run_task_cmd payload => handle_run_task st cmd_id payload
  | .stop_cmd => (let r := handle_stop st cmd_id; (r.1, r.2, none))
  | .pause_cmd => (let r := handle_pause st cmd_id; (r.1, r.2, none))
  | .resume_cmd => (let r := handle_resume st cmd_id; (r.1, r.2, none))

/-- The dispatcher's pass over a list of commands: handler envelopes
accumulate in input order, and the background runs created along the
way are collected *unexecuted* — the loop never waits for them. -/
def dispatch_cmds (st : WorkerSt) : List (String × WCmd) → WorkerSt × List Envelope × List RunSpec
  | [] => (st, [], [])
  | (cid, c) :: rest =>
    let r1 := dispatch_step st cid c
    let r2 := dispatch_cmds r1.1 rest
    (r2.1, r1.2.1 ++ r2.2.1, r1.2.2.toList ++ r2.2.2)

/-! ### Step-boundary callbacks

Embedding of `on_step_start` (lines 462-477) and `on_step_end` (lines
479-570).  Each external probe (browser state summary, history
accessors, screenshot capture plus persistence) is represented by an
`Option` argument: `none` means the corresponding call raised.
-/

/-- The url/title summary read from
`agent.browser_session.get_browser_state_summary()`; missing
attributes read as `None` via `getattr`. -/
structure PageState where
  url : Option String
  title : Option String

/-- One entry of `agent.history.model_outputs()` after
`model_dump(exclude_none=True)`, as consumed by the callback:
only the `memory`, `next_goal` and `action` fields are read. -/
structure ModelOutputDump where
  memory : Option String
  next_goal : Option String
  actions : Option JVal

/-- One entry of `agent.history.action_results()`, as consumed via
`getattr`: extracted content, long-term memory and error text. -/
structure ActionResultRec where
  extracted_content : Option String
  long_term_memory : Option String
  error : Option String

/-- Result payload of `_persist_screenshot` (lines 131-161): the
primary image path and the best-effort thumbnail path. -/
structure ScreenshotPayload where
  path : String
  thumb_path : Option String

/-- Embedding of `on_step_start` (lines 462-477): emit the current
page state; on a raised probe, fall back to the bare event.
`step_index` is the value after the increment of line 464. -/
def on_step_start (run_id : String) (step_index : Int) (probe : Option PageState) :
    List Envelope :=
  match probe with
  | some ps =>
    [⟨some run_id, "run_task.event",
      .jobj [("event", .jstr "step_start"), ("step", .jnum step_index),
             ("url", jopt ps.url), ("title", jopt ps.title)]⟩]
  | none =>
    [⟨some run_id, "run_task.event",
      .jobj [("event", .jstr "step_start"), ("step", .jnum step_index)]⟩]

/-- The model-output event of lines 488-497. -/
def model_output_envelope (run_id : String) (step_index : Int) (d : ModelOutputDump) : Envelope :=
  ⟨some run_id, "run_task.event",
    .jobj [("event", .jstr "model_output"), ("step", .jnum step_index),
           ("memory", jopt d.memory), ("next_goal", jopt d.next_goal),
           ("actions", d.actions.getD .jnull)]⟩

/-- The action-result event of lines 508-528: an error entry reports
status `error`; otherwise a non-empty text reports status `ok`;
entries with neither are skipped. -/
def action_result_envelope (run_id : String) (step_index : Int) (r : ActionResultRec) :
    Option Envelope :=
  let text := (let a := r.extracted_content.getD ""
               if a ≠ "" then a else r.long_term_memory.getD "")
  match r.error with
  | some e =>
    if e ≠ "" then
      some ⟨some run_id, "run_task.event",
        .jobj [("event", .jstr "action_result"), ("step", .jnum step_index),
               ("status", .jstr "error"), ("text", .jstr e)]⟩
    else if text ≠ "" then
      some ⟨some run_id, "run_task.event",
        .jobj [("event", .jstr "action_result"), ("step", .jnum step_index),
               ("status", .jstr "ok"), ("text", .jstr text)]⟩
    else none
  | none =>
    if text ≠ "" then
      some ⟨some run_id, "run_task.event",
        .jobj [("event", .jstr "action_result"), ("step", .jnum step_index),
               ("status", .jstr "ok"), ("text", .jstr text)]⟩
    else none

/-- The screenshot event of lines 546-553: the persisted payload keys
are spliced into the event. -/
def screenshot_envelope (run_id : String) (step_index : Int) (p : ScreenshotPayload) : Envelope :=
  ⟨some run_id, "run_task.event",
    .jobj ([("event", .jstr "screenshot"), ("step", .jnum step_index),
            ("path", .jstr p.path)] ++
           (match p.thumb_path with
            | some t => [("thumb_path", .jstr t)]
            | none => []))⟩

/-- The observations available to one `on_step_end` call.  For the two
history accessors, `none` models the whole guarded block raising;
`some xs` gives the full history lists (of which only the entries past
the reported counters are new).  For the screenshot, `none` models a
failure anywhere in capture or persistence. -/
structure StepEndObs where
  model_outputs : Option (List ModelOutputDump)
  action_results : Option (List ActionResultRec)
  screenshot : Option ScreenshotPayload
  post_state : Option PageState

/-- The post-step state event of lines 558-570, with the bare
fallback of line 570. -/
def step_end_envelope (run_id : String) (step_index : Int) (probe : Option PageState) : Envelope :=
  match probe with
  | some ps =>
    ⟨some run_id, "run_task.event",
      .jobj [("event", .jstr "step_end"), ("step", .jnum step_index),
             ("url", jopt ps.url), ("title", jopt ps.title)]⟩
  | none =>
    ⟨some run_id, "run_task.event",
      .jobj [("event", .jstr "step_end"), ("step", .jnum step_index)]⟩

/-- Embedding of `on_step_end` (lines 479-570): four independently
guarded blocks emit, in order, new model outputs, new action results,
the captured screenshot, and the post-step state; a raised block emits
nothing for its own channel (and, for the history blocks, leaves its
reported counter unchanged).  Returns the emitted envelopes and the
updated `reported_model_outputs` / `reported_action_results`
counters. -/
def on_step_end (run_id : String) (step_index : Int)
    (reported_model_outputs reported_action_results : Nat) (obs : StepEndObs) :
    List Envelope × Nat × Nat :=
  let b1 := match obs.model_outputs with
    | some outs =>
      ((outs.drop reported_model_outputs).map (model_output_envelope run_id step_index),
       outs.length)
    | none => ([], reported_model_outputs)
  let b2 := match obs.action_results with
    | some results =>
      ((results.drop reported_action_results).filterMap (action_result_envelope run_id step_index),
       results.length)
    | none => ([], reported_action_results)
  let b3 := match obs.screenshot with
    | some p => [screenshot_envelope run_id step_index p]
    | none => []
  let b4 := [step_end_envelope run_id step_index obs.post_state]
  (b1.1 ++ b2.1 ++ b3 ++ b4, b1.2, b2.2)

/-! ### Theorems: action sanitizer (claims C1, C2, C3) -/

/-- Whether an action carries no clear flag. -/
def clear_absent : BUAction → Bool
  | .inputText p => p.clear.isNone
  | _ => true

def index_preserved (index : Option Int) (orig : BUAction) : BUAction → Bool
  | .inputText p => p.index == index || BUAction.inputText p == orig
  | _ => true

theorem emit_true_clear_absent (orig : BUAction) (index : Option Int) (clearV : Option Bool) :
    ∀ segs : List Seg, ((emitForSegs orig index clearV true segs).all clear_absent) = true := by
  intro segs
  induction segs with
  | nil => rfl
  | cons hd tl ih =>
    cases hd with
    | lit s =>
      cases tl with
      | nil =>
        by_cases hs : s = "" <;> simp [emitForSegs, hs, clear_absent]
      | cons h2 t2 =>
        by_cases hs : s = "" <;> simp [emitForSegs, hs, clear_absent] <;> simpa using ih
    | tok t =>
      cases hnorm : normalize_send_keys_token t with
      | none =>
        simp [emitForSegs, hnorm, clear_absent]
        simpa using ih
      | some k =>
        simp [emitForSegs, hnorm, clear_absent]
        simpa using ih

theorem emit_false_tail_clear_absent (orig : BUAction) (index : Option Int) (clearV : Option Bool) :
    ∀ segs : List Seg, ((emitForSegs orig index clearV false segs).tail.all clear_absent) = true := by
  intro segs
  induction segs with
  | nil => rfl
  | cons hd tl ih =>
    cases hd with
    | lit s =>
      cases tl with
      | nil =>
        by_cases hs : s = "" <;> simp [emitForSegs, hs, clear_absent]
      | cons h2 t2 =>
        by_cases hs : s = "" <;> simp [emitForSegs, hs, clear_absent]
        · simpa using ih
        · simpa using emit_true_clear_absent orig index clearV (h2 :: t2)
    | tok t =>
      cases hnorm : normalize_send_keys_token t with
      | none =>
        simp [emitForSegs, hnorm, clear_absent]
        simpa using emit_true_clear_absent orig index clearV tl
      | some k =>
        simp [emitForSegs, hnorm, clear_absent]
        simpa using emit_true_clear_absent orig index clearV tl

theorem emit_index_preserved (orig : BUAction) (index : Option Int) (clearV : Option Bool) :
    ∀ (typed : Bool) (segs : List Seg),
      ((emitForSegs orig index clearV typed segs).all (index_preserved index orig)) = true := by
  intro typed segs
  induction segs generalizing typed with
  | nil => rfl
  | cons hd tl ih =>
    cases hd with
    | lit s =>
      cases tl with
      | nil =>
        cases typed with
        | true => by_cases hs : s = "" <;> simp [emitForSegs, hs, index_preserved]
        | false =>
          by_cases hs : s = ""
          · cases orig <;> simp [emitForSegs, hs, index_preserved]
          · simp [emitForSegs, hs, index_preserved]
      | cons h2 t2 =>
        by_cases hs : s = "" <;> simp [emitForSegs, hs, index_preserved] <;> simpa using ih _
    | tok t =>
      cases hnorm : normalize_send_keys_token t with
      | none =>
        simp [emitForSegs, hnorm, index_preserved]
        simpa using ih _
      | some k =>
        cases typed <;> simp [emitForSegs, hnorm, index_preserved] <;> simpa using ih _

/-- Claim C1: sanitizing the typed text `Hello{Enter}World` at index 5
with clear=true yields exactly the typing action `Hello` (index 5,
clear=true), the key press `Enter`, and the typing action `World`
(index 5, no clear); in general every non-empty literal span before a
token becomes a typing action at the original index carrying the clear
flag only when nothing has been emitted yet, every sub-action emitted
after the first carries no clear flag, and every emitted typing action
preserves the original target index. -/
theorem claim_c1_sanitize_literal_token_split :
    sanitize_actions [BUAction.inputText ⟨some 5, "Hello\x7bEnter\x7dWorld", some true⟩] =
      [BUAction.inputText ⟨some 5, "Hello", some true⟩,
       BUAction.send_keys "Enter",
       BUAction.inputText ⟨some 5, "World", none⟩]
    ∧ (∀ (orig : BUAction) (index : Option Int) (clearV : Option Bool) (typed : Bool)
         (s t : String) (rest : List Seg),
        emitForSegs orig index clearV typed (Seg.lit s :: Seg.tok t :: rest) =
          (if s = "" then emitForSegs orig index clearV typed (Seg.tok t :: rest)
           else BUAction.inputText ⟨index, s, if !typed && clearV.isSome then clearV else none⟩ ::
             emitForSegs orig index clearV true (Seg.tok t :: rest)))
    ∧ (∀ (orig : BUAction) (index : Option Int) (clearV : Option Bool) (segs : List Seg),
        ((emitForSegs orig index clearV true segs).all clear_absent) = true)
    ∧ (∀ (orig : BUAction) (index : Option Int) (clearV : Option Bool) (segs : List Seg),
        ((emitForSegs orig index clearV false segs).tail.all clear_absent) = true)
    ∧ (∀ (orig : BUAction) (index : Option Int) (clearV : Option Bool) (typed : Bool)
         (segs : List Seg),
        ((emitForSegs orig index clearV typed segs).all (index_preserved index orig)) = true) :=
  ⟨rfl, fun _ _ _ _ _ _ _ => rfl, emit_true_clear_absent, emit_false_tail_clear_absent,
   emit_index_preserved⟩

/-- Claim C2: sanitizing a payload that is the single token `{Ctrl+L}`
at index 2 with nothing typed yet emits first an empty-text focus
typing action at index 2 carrying the original clear flag and then the
key press `Control+l`; the normalizer maps the modifier aliases
ctrl/control to Control, cmd/command/meta to Meta, alt/option to Alt,
shift to Shift, lower-cases a single-character key, and joins
modifiers-then-key with plus signs. -/
theorem claim_c2_single_token_focus_and_normalize :
    (∀ cv : Option Bool,
      sanitize_actions [BUAction.inputText ⟨some 2, "\x7bCtrl+L\x7d", cv⟩] =
        [BUAction.inputText ⟨some 2, "", cv⟩, BUAction.send_keys "Control+l"])
    ∧ normalize_send_keys_token "Ctrl+L" = some "Control+l"
    ∧ normalize_send_keys_token "ctrl+a" = some "Control+a"
    ∧ normalize_send_keys_token "control+a" = some "Control+a"
    ∧ normalize_send_keys_token "cmd+v" = some "Meta+v"
    ∧ normalize_send_keys_token "command+v" = some "Meta+v"
    ∧ normalize_send_keys_token "meta+v" = some "Meta+v"
    ∧ normalize_send_keys_token "alt+f" = some "Alt+f"
    ∧ normalize_send_keys_token "option+f" = some "Alt+f"
    ∧ normalize_send_keys_token "Shift+Tab" = some "Shift+Tab"
    ∧ normalize_send_keys_token "Ctrl+Shift+T" = some "Control+Shift+t" := by
  refine ⟨fun cv => ?_, ?_, ?_, ?_, ?_, ?_, ?_, ?_, ?_, ?_, ?_⟩
  · cases cv <;> rfl
  all_goals decide

/-- Claim C3: an unrecognized bracketed token — an unknown name such
as `{unknownfoo}`, an empty or whitespace-only token, or a
plus-joined combination with no resolvable key — is kept literal with
its braces: the input yields exactly one typing action with the text
unchanged at the original index; and the normalizer indeed rejects
those token bodies. -/
theorem claim_c3_unrecognized_token_kept_literal :
    (∀ (index : Option Int) (cv : Option Bool),
      sanitize_actions [BUAction.inputText ⟨index, "\x7bunknownfoo\x7d", cv⟩] =
        [BUAction.inputText ⟨index, "\x7bunknownfoo\x7d", cv⟩])
    ∧ (∀ (index : Option Int) (cv : Option Bool),
      sanitize_actions [BUAction.inputText ⟨index, "\x7b \x7d", cv⟩] =
        [BUAction.inputText ⟨index, "\x7b \x7d", cv⟩])
    ∧ (∀ (index : Option Int) (cv : Option Bool),
      sanitize_actions [BUAction.inputText ⟨index, "\x7b\x7d", cv⟩] =
        [BUAction.inputText ⟨index, "\x7b\x7d", cv⟩])
    ∧ (∀ (index : Option Int) (cv : Option Bool),
      sanitize_actions [BUAction.inputText ⟨index, "\x7bctrl+\x7d", cv⟩] =
        [BUAction.inputText ⟨index, "\x7bctrl+\x7d", cv⟩])
    ∧ normalize_send_keys_token "unknownfoo" = none
    ∧ normalize_send_keys_token "" = none
    ∧ normalize_send_keys_token "   " = none
    ∧ normalize_send_keys_token "ctrl+" = none
    ∧ normalize_send_keys_token "+" = none := by
  refine ⟨fun i cv => ?_, fun i cv => ?_, fun i cv => ?_, fun i cv => ?_, ?_, ?_, ?_, ?_, ?_⟩
  · cases cv <;> rfl
  · cases cv <;> rfl
  · rfl
  · cases cv <;> rfl
  all_goals decide

/-! ### Theorems: task controller, dispatcher, session manager and
step callbacks (claims C4, C5, C6, C7, C8, C9, C10) -/

/-- Whether an envelope is a terminal run signal. -/
def is_terminal_envelope (e : Envelope) : Bool :=
  e.etype == "run_task.ok" || e.etype == "run_task.error" || e.etype == "run_task.cancelled"

def is_ok_or_error_terminal (e : Envelope) : Bool :=
  e.etype == "run_task.ok" || e.etype == "run_task.error"

def is_cancelled_terminal (e : Envelope) : Bool :=
  e.etype == "run_task.cancelled"

/-- Claim C4: a `run_task` command received while a non-finished run
task exists is answered immediately with a single
`run_task.error` envelope whose message is `A browser task is already
running`; the worker state is returned unchanged and no background run
is scheduled, so the active run is undisturbed; and the background run
itself, for every possible outcome, emits exactly one terminal
envelope (`run_task.ok`, `run_task.error` or `run_task.cancelled`). -/
theorem claim_c4_run_task_busy_rejected :
    (∀ (st : WorkerSt) (rid : String) (c : Bool) (cmd_id : String)
       (payload : List (String × JVal)),
      handle_run_task {st with run_task := some ⟨rid, false, c⟩} cmd_id payload =
        ({st with run_task := some ⟨rid, false, c⟩}, [busy_envelope cmd_id], none))
    ∧ (∀ (run_id : String) (o : RunOutcome),
        ((run_agent_emits run_id o).countP is_terminal_envelope) = 1) := by
  refine ⟨fun st rid c cmd_id payload => rfl, fun run_id o => ?_⟩
  cases o <;> rfl

/-- Claim C5: when the background run observes cancellation (whether
during setup or mid-run), it emits exactly one `run_task.cancelled`
terminal envelope with payload `status: cancelled` and no
`run_task.ok` or `run_task.error`; the cancellation is re-raised
rather than swallowed; the active-agent reference is cleared after the
run; and `handle_stop` on an active run requests the cancellation and
acknowledges with `stop.ok`. -/
theorem claim_c5_cancellation_behaviour :
    (∀ run_id : String,
      run_agent_emits run_id .cancelled_in_setup = [cancelled_envelope run_id]
      ∧ run_agent_emits run_id .cancelled_in_run =
          [started_envelope run_id, cancelled_envelope run_id]
      ∧ ((run_agent_emits run_id .cancelled_in_setup).countP is_cancelled_terminal) = 1
      ∧ ((run_agent_emits run_id .cancelled_in_run).countP is_cancelled_terminal) = 1
      ∧ ((run_agent_emits run_id .cancelled_in_setup).countP is_ok_or_error_terminal) = 0
      ∧ ((run_agent_emits run_id .cancelled_in_run).countP is_ok_or_error_terminal) = 0)
    ∧ run_agent_reraises .cancelled_in_setup = true
    ∧ run_agent_reraises .cancelled_in_run = true
    ∧ (∀ (st : WorkerSt) (run_id : String),
        (drive_run st run_id .cancelled_in_setup).1.agent = false
        ∧ (drive_run st run_id .cancelled_in_run).1.agent = false)
    ∧ (∀ (st : WorkerSt) (cmd_id : String) (rid : String) (c : Bool),
        handle_stop {st with run_task := some ⟨rid, false, c⟩} cmd_id =
          ({st with run_task := some ⟨rid, false, true⟩},
           [⟨some cmd_id, "stop.ok", status_ok_payload⟩])) := by
  refine ⟨fun run_id => ⟨rfl, rfl, rfl, rfl, rfl, rfl⟩, rfl, rfl,
    fun st run_id => ⟨rfl, rfl⟩, fun st cmd_id rid c => rfl⟩

/-- Claim C10: a `run_task` command arriving while no run is active
whose task field is absent, empty or whitespace-only (i.e. whose
extracted task text strips to the empty string) is answered with a
single `run_task.error` envelope with message `Missing task`; the
state is unchanged (no current run id is set, no run handle stored)
and no background run is scheduled, so no `run_task.event` or terminal
envelope ever arises from that command. -/
theorem claim_c10_missing_task_rejected :
    ∀ (st : WorkerSt) (cmd_id : String) (payload : List (String × JVal)),
      run_task_active st = false →
      extract_task payload = "" →
      handle_run_task st cmd_id payload = (st, [missing_task_envelope cmd_id], none) := by
  intro st cmd_id payload h1 h2
  simp [handle_run_task, h1, h2]

/-- Witness for claim C10 at a concrete whitespace-only task payload
on the initial worker state. -/
theorem claim_c10_witness :
    run_task_active worker_state_init = false
    ∧ extract_task [("task", JVal.jstr "   ")] = ""
    ∧ handle_run_task worker_state_init "cmd-7" [("task", JVal.jstr "   ")] =
        (worker_state_init, [missing_task_envelope "cmd-7"], none) :=
  ⟨rfl, rfl,
   claim_c10_missing_task_rejected worker_state_init "cmd-7" [("task", JVal.jstr "   ")] rfl rfl⟩

/-- A JSON decoder that fails on every line. -/
def parse_fail : String → Option JVal := fun _ => none

/-- A handler table that writes nothing and never raises. -/
def hexec_silent : String → String → JVal → List Envelope × Option String :=
  fun _ _ _ => ([], none)

/-- Counterexample to claim C6 as stated: the whitespace-only input
line cannot be JSON-decoded (the decoder fails on it), yet the
dispatcher emits no envelope at all for it — the line is stripped to
emptiness and silently skipped before JSON decoding, so no
`id=null` error envelope is produced. -/
theorem claim_c6_counterexample :
    parse_fail "   " = none
    ∧ parse_fail (pystrip "   ") = none
    ∧ dispatch_lines parse_fail hexec_silent ["   "] = [] :=
  ⟨rfl, rfl, rfl⟩

/-- Claim C6 (amended): for every input line that is non-blank after
whitespace-stripping and whose stripped text fails JSON decoding, the
dispatcher emits exactly one error envelope with id null and type
`error`, and the loop continues: the remaining lines are processed
exactly as if the malformed line had not occurred. -/
theorem claim_c6_nonblank_malformed_line :
    ∀ (parse : String → Option JVal)
      (hexec : String → String → JVal → List Envelope × Option String)
      (line : String) (rest : List String),
      pystrip line ≠ "" →
      parse (pystrip line) = none →
      dispatch_line parse hexec line = some [invalid_json_envelope]
      ∧ dispatch_lines parse hexec (line :: rest) =
          invalid_json_envelope :: dispatch_lines parse hexec rest := by
  intro parse hexec line rest h1 h2
  refine ⟨?_, ?_⟩
  · simp [dispatch_line, h1, h2]
  · simp [dispatch_lines, dispatch_line, h1, h2]

/-- Witness for the amended claim C6 at a concrete malformed line
followed by another line. -/
theorem claim_c6_witness :
    pystrip "oops" ≠ ""
    ∧ parse_fail (pystrip "oops") = none
    ∧ (dispatch_line parse_fail hexec_silent "oops" = some [invalid_json_envelope]
       ∧ dispatch_lines parse_fail hexec_silent ["oops", "next"] =
           invalid_json_envelope :: dispatch_lines parse_fail hexec_silent ["next"]) :=
  ⟨by decide, rfl,
   claim_c6_nonblank_malformed_line parse_fail hexec_silent "oops" ["next"] (by decide) rfl⟩

def envelope_id_is (cid : String) (e : Envelope) : Bool :=
  e.eid == some cid

/-- Every envelope a handler writes carries the id of the command
that invoked it. -/
theorem dispatch_step_ids (st : WorkerSt) (cid : String) (c : WCmd) :
    ((dispatch_step st cid c).2.1.all (envelope_id_is cid)) = true := by
  cases c with
  | run_task_cmd payload =>
    by_cases h1 : run_task_active st
    · simp [dispatch_step, handle_run_task, h1, envelope_id_is, busy_envelope]
    · by_cases h2 : extract_task payload = "" <;>
        simp [dispatch_step, handle_run_task, h1, h2, envelope_id_is, missing_task_envelope]
  | stop_cmd =>
    cases hrt : st.run_task with
    | none => simp [dispatch_step, handle_stop, hrt, envelope_id_is]
    | some h =>
      by_cases hf : h.finished <;> simp [dispatch_step, handle_stop, hrt, hf, envelope_id_is]
  | pause_cmd => simp [dispatch_step, handle_pause, envelope_id_is]
  | resume_cmd => simp [dispatch_step, handle_resume, envelope_id_is]

/-- Dispatching a command list in which no command bears a given id
produces no envelope bearing that id. -/
theorem dispatch_cmds_no_foreign_id :
    ∀ (cmds : List (String × WCmd)) (st : WorkerSt) (cid : String),
      (∀ x ∈ cmds, x.1 ≠ cid) →
      ((dispatch_cmds st cmds).2.1.all (fun e => !(envelope_id_is cid e))) = true := by
  intro cmds
  induction cmds with
  | nil => intro st cid _; rfl
  | cons hd tl ih =>
    intro st cid h
    have hhd : hd.1 ≠ cid := h hd (by simp)
    have hstep := dispatch_step_ids st hd.1 hd.2
    have htl := ih (dispatch_step st hd.1 hd.2).1 cid (fun x hx => h x (by simp [hx]))
    rw [List.all_eq_true] at hstep htl ⊢
    intro e he
    rcases List.mem_append.mp (by simpa [dispatch_cmds] using he) with he1 | he2
    · have := hstep e he1
      simp only [envelope_id_is, beq_iff_eq] at this ⊢
      simp [this, hhd]
    · exact htl e he2

/-- Claim C7: an accepted `run_task` command writes no envelopes at
acceptance time and schedules the run as background work that is not
executed inline: the handler returns with the run recorded as pending,
dispatching continues with the subsequent commands (whose envelopes
are produced while the run is still pending), none of the dispatcher
output carries the run id — in particular the run terminal event is
not among it — and the terminal envelope (exactly one) arises only
from separately driving the scheduled background unit. -/
theorem claim_c7_run_task_nonblocking :
    ∀ (st : WorkerSt) (cmd_id : String) (payload : List (String × JVal))
      (rest : List (String × WCmd)),
      run_task_active st = false →
      extract_task payload ≠ "" →
      (∀ x ∈ rest, x.1 ≠ cmd_id) →
      (dispatch_step st cmd_id (.run_task_cmd payload)).2.1 = []
      ∧ (dispatch_step st cmd_id (.run_task_cmd payload)).2.2.isSome = true
      ∧ (dispatch_step st cmd_id (.run_task_cmd payload)).1 =
          {st with current_run_id := some cmd_id, run_task := some ⟨cmd_id, false, false⟩}
      ∧ dispatch_cmds st ((cmd_id, .run_task_cmd payload) :: rest) =
          ((dispatch_cmds (dispatch_step st cmd_id (.run_task_cmd payload)).1 rest).1,
           (dispatch_cmds (dispatch_step st cmd_id (.run_task_cmd payload)).1 rest).2.1,
           (dispatch_step st cmd_id (.run_task_cmd payload)).2.2.toList ++
             (dispatch_cmds (dispatch_step st cmd_id (.run_task_cmd payload)).1 rest).2.2)
      ∧ ((dispatch_cmds st ((cmd_id, .run_task_cmd payload) :: rest)).2.1.all
           (fun e => !(envelope_id_is cmd_id e))) = true
      ∧ (∀ o : RunOutcome, ((run_agent_emits cmd_id o).countP is_terminal_envelope) = 1) := by
  intro st cmd_id payload rest h1 h2 h3
  have hstep : (dispatch_step st cmd_id (.run_task_cmd payload)).2.1 = [] := by
    simp [dispatch_step, handle_run_task, h1, h2]
  refine ⟨hstep, ?_, ?_, ?_, ?_, ?_⟩
  · simp [dispatch_step, handle_run_task, h1, h2]
  · simp [dispatch_step, handle_run_task, h1, h2]
  · simp [dispatch_cmds, hstep]
  · have := dispatch_cmds_no_foreign_id rest (dispatch_step st cmd_id (.run_task_cmd payload)).1
      cmd_id h3
    simpa [dispatch_cmds, hstep] using this
  · intro o; cases o <;> rfl

/-- Witness for claim C7: a concrete accepted `run_task` followed by
a `stop` command under a different id. -/
theorem claim_c7_witness :
    run_task_active worker_state_init = false
    ∧ extract_task [("task", JVal.jstr "open example.com")] ≠ ""
    ∧ (∀ x ∈ [("s1", WCmd.stop_cmd)], Prod.fst x ≠ "r1")
    ∧ (dispatch_step worker_state_init "r1"
         (.run_task_cmd [("task", JVal.jstr "open example.com")])).2.1 = []
    ∧ ((dispatch_cmds worker_state_init
          [("r1", .run_task_cmd [("task", JVal.jstr "open example.com")]),
           ("s1", WCmd.stop_cmd)]).2.1.all
         (fun e => !(envelope_id_is "r1" e))) = true := by
  have h1 : run_task_active worker_state_init = false := rfl
  have h2 : extract_task [("task", JVal.jstr "open example.com")] ≠ "" := by decide
  have h3 : ∀ x ∈ [("s1", WCmd.stop_cmd)], Prod.fst x ≠ "r1" := by
    intro x hx
    simp at hx
    simp [hx]
  have hmain := claim_c7_run_task_nonblocking worker_state_init "r1"
    [("task", JVal.jstr "open example.com")] [("s1", WCmd.stop_cmd)] h1 h2 h3
  exact ⟨h1, h2, h3, hmain.1, hmain.2.2.2.2.1⟩

/-- Session creation never touches the launch-argument or
sub-profile configuration and keeps a configured executable override
(resolution is `STATE.chrome_executable_path or env or default`). -/
theorem ensure_browser_config_effect (st : WorkerSt) (udd : Option String) (E : EnsureEnv) :
    (ensure_browser st udd E).1.chrome_args = st.chrome_args
    ∧ (ensure_browser st udd E).1.profile_directory = st.profile_directory
    ∧ (∀ p, st.chrome_executable_path = some p →
        (ensure_browser st udd E).1.chrome_executable_path = some p) := by
  unfold ensure_browser
  by_cases hbr : st.browser <;> by_cases hal : E.browser_alive <;>
    cases E.creation <;>
    refine ⟨by simp [hbr, hal], by simp [hbr, hal], ?_⟩ <;>
    intro p hp <;> simp [hbr, hal, hp, Option.orElse]



/-- The sub-profile replacement depends only on the payload field,
not on the previous state. -/
theorem apply_pd_update_profile_independent (a b : WorkerSt) (v : Option JVal) :
    (apply_pd_update a v).profile_directory = (apply_pd_update b v).profile_directory := by
  rcases v with _ | w <;> try rfl
  cases w <;> try rfl
  simp only [apply_pd_update]
  split_ifs <;> rfl

/-- The sub-profile update leaves the launch arguments unchanged. -/
theorem apply_pd_update_keeps_args (a : WorkerSt) (v : Option JVal) :
    (apply_pd_update a v).chrome_args = a.chrome_args := by
  rcases v with _ | w <;> try rfl
  cases w <;> try rfl
  simp only [apply_pd_update]
  split_ifs <;> rfl

/-- The sub-profile update leaves the executable override
unchanged. -/
theorem apply_pd_update_keeps_cep (a : WorkerSt) (v : Option JVal) :
    (apply_pd_update a v).chrome_executable_path = a.chrome_executable_path := by
  rcases v with _ | w <;> try rfl
  cases w <;> try rfl
  simp only [apply_pd_update]
  split_ifs <;> rfl

/-- The launch-argument update stores exactly the normalized list
(both branches of lines 371-374). -/
theorem apply_args_update_sets_args (a : WorkerSt) (l : List String) :
    (apply_args_update a l).chrome_args = l := by
  simp only [apply_args_update]
  cases l <;> simp

/-- The launch-argument update leaves the executable override
unchanged. -/
theorem apply_args_update_keeps_cep (a : WorkerSt) (l : List String) :
    (apply_args_update a l).chrome_executable_path = a.chrome_executable_path := by
  simp only [apply_args_update]
  split_ifs <;> rfl

/-- Combined effect of the configuration updates of
`handle_open_browser`: launch arguments become exactly the normalized
payload list, the sub-profile is replaced from the payload alone, and
a missing or empty executable-path field leaves the stored override as
it was. -/
theorem open_browser_config_update_effect (st : WorkerSt) (payload : List (String × JVal)) :
    (open_browser_config_update st payload).chrome_args =
        normalize_chrome_args (jlookup payload "chrome_args")
    ∧ (open_browser_config_update st payload).profile_directory =
        (apply_pd_update st (jlookup payload "profile_directory")).profile_directory
    ∧ ((jlookup payload "chrome_executable_path" = none ∨
        jlookup payload "chrome_executable_path" = some (.jstr "")) →
        (open_browser_config_update st payload).chrome_executable_path =
          st.chrome_executable_path) := by
  refine ⟨?_, ?_, ?_⟩
  · rw [open_browser_config_update, apply_pd_update_keeps_args, apply_args_update_sets_args]
  · rw [open_browser_config_update]
    exact apply_pd_update_profile_independent _ _ _
  · rintro (h | h) <;>
      rw [open_browser_config_update, apply_pd_update_keeps_cep, apply_args_update_keeps_cep, h] <;>
      simp [apply_cep_update]

/-- Claim C8: for every `open_browser` command, a missing or empty
executable-path field leaves a previously configured executable
override unchanged through the whole handler (including session
creation), while the extra launch arguments and the named sub-profile
are replaced wholesale from the payload: the stored arguments equal
the normalized payload list (so a missing field clears them to the
empty list), and the stored sub-profile depends only on the payload
field (a missing or empty field clears it to none). -/
theorem claim_c8_open_browser_config_replacement :
    ∀ (st : WorkerSt) (cmd_id : String) (payload : List (String × JVal))
      (E : EnsureEnv) (tb : String),
      (∀ p, (jlookup payload "chrome_executable_path" = none ∨
             jlookup payload "chrome_executable_path" = some (.jstr "")) →
        st.chrome_executable_path = some p →
        (handle_open_browser st cmd_id payload E tb).1.chrome_executable_path = some p)
      ∧ (handle_open_browser st cmd_id payload E tb).1.chrome_args =
          normalize_chrome_args (jlookup payload "chrome_args")
      ∧ (jlookup payload "chrome_args" = none →
          (handle_open_browser st cmd_id payload E tb).1.chrome_args = [])
      ∧ (∀ st2 : WorkerSt,
          (handle_open_browser st cmd_id payload E tb).1.profile_directory =
          (handle_open_browser st2 cmd_id payload E tb).1.profile_directory)
      ∧ (jlookup payload "profile_directory" = none →
          (handle_open_browser st cmd_id payload E tb).1.profile_directory = none)
      ∧ (jlookup payload "profile_directory" = some (.jstr "") →
          (handle_open_browser st cmd_id payload E tb).1.profile_directory = none) := by
  intro st cmd_id payload E tb
  have hens := fun s =>
    ensure_browser_config_effect (open_browser_config_update s payload)
      (match jlookup payload "user_data_dir" with
       | some (.jstr s) => some s
       | _ => none) E
  have hcfg := fun s => open_browser_config_update_effect s payload
  have hhandle : ∀ s : WorkerSt, (handle_open_browser s cmd_id payload E tb).1 =
      (ensure_browser (open_browser_config_update s payload)
        (match jlookup payload "user_data_dir" with
         | some (.jstr s) => some s
         | _ => none) E).1 := fun s => rfl
  refine ⟨?_, ?_, ?_, ?_, ?_, ?_⟩
  · intro p hfield hst
    rw [hhandle]
    exact (hens st).2.2 p (((hcfg st).2.2 hfield).trans hst)
  · rw [hhandle, (hens st).1, (hcfg st).1]
  · intro h
    rw [hhandle, (hens st).1, (hcfg st).1, h]
    rfl
  · intro st2
    rw [hhandle st, hhandle st2, (hens st).2.1, (hens st2).2.1, (hcfg st).2.1, (hcfg st2).2.1]
    exact apply_pd_update_profile_independent _ _ _
  · intro h
    rw [hhandle, (hens st).2.1, (hcfg st).2.1, h]
    rfl
  · intro h
    rw [hhandle, (hens st).2.1, (hcfg st).2.1, h]
    simp [apply_pd_update]

/-- Test state with a configured executable override, launch args and
sub-profile. -/
def c8_state : WorkerSt :=
  { worker_state_init with
    chrome_executable_path := some "/opt/chrome"
    chrome_args := ["--old-flag"]
    profile_directory := some "Default" }

/-- Test payload with an empty executable path and no args/sub-profile
fields. -/
def c8_payload : List (String × JVal) := [("chrome_executable_path", JVal.jstr "")]

/-- Test ensure environment: no live browser, nothing resolvable from
the environment, creation succeeds. -/
def c8_env : EnsureEnv := ⟨false, none, none, CreationOutcome.ok⟩

/-- Witness for claim C8 at a concrete configured state and a
payload with an empty executable path and no argument or sub-profile
fields. -/
theorem claim_c8_witness :
    (jlookup c8_payload "chrome_executable_path" = some (.jstr ""))
    ∧ c8_state.chrome_executable_path = some "/opt/chrome"
    ∧ jlookup c8_payload "chrome_args" = none
    ∧ jlookup c8_payload "profile_directory" = none
    ∧ (handle_open_browser c8_state "o1" c8_payload c8_env "").1.chrome_executable_path =
        some "/opt/chrome"
    ∧ (handle_open_browser c8_state "o1" c8_payload c8_env "").1.chrome_args = []
    ∧ (handle_open_browser c8_state "o1" c8_payload c8_env "").1.profile_directory = none := by
  have h := claim_c8_open_browser_config_replacement c8_state "o1" c8_payload c8_env ""
  exact ⟨rfl, rfl, rfl, rfl, h.1 "/opt/chrome" (Or.inr rfl) rfl, h.2.2.1 rfl, h.2.2.2.2.1 rfl⟩

/-- The `event` discriminator of a stream-event payload. -/
def event_kind (e : Envelope) : Option String :=
  match e.payload with
  | .jobj fs =>
    (match jlookup fs "event" with
     | some (.jstr s) => some s
     | _ => none)
  | _ => none

def is_step_start_event (e : Envelope) : Bool := event_kind e == some "step_start"

def is_step_end_event (e : Envelope) : Bool := event_kind e == some "step_end"

def is_screenshot_event (e : Envelope) : Bool := event_kind e == some "screenshot"

/-- Model-output events are neither step-end nor screenshot
events. -/
theorem model_output_envelope_kind (run_id : String) (n : Int) (d : ModelOutputDump) :
    is_step_end_event (model_output_envelope run_id n d) = false
    ∧ is_screenshot_event (model_output_envelope run_id n d) = false := ⟨rfl, rfl⟩

/-- Action-result events are neither step-end nor screenshot
events. -/
theorem action_result_envelope_kind (run_id : String) (n : Int) (r : ActionResultRec)
    (e : Envelope) (h : action_result_envelope run_id n r = some e) :
    is_step_end_event e = false ∧ is_screenshot_event e = false := by
  rcases r with ⟨ec, lm, er⟩
  cases er <;> simp only [action_result_envelope] at h <;> split_ifs at h <;>
    cases h <;> exact ⟨rfl, rfl⟩

/-- Screenshot events are screenshot events and not step-end
events. -/
theorem screenshot_envelope_kind (run_id : String) (n : Int) (p : ScreenshotPayload) :
    is_step_end_event (screenshot_envelope run_id n p) = false
    ∧ is_screenshot_event (screenshot_envelope run_id n p) = true := ⟨rfl, rfl⟩

/-- The post-step event is a step-end event and not a screenshot
event, with or without a page-state probe. -/
theorem step_end_envelope_kind (run_id : String) (n : Int) (probe : Option PageState) :
    is_step_end_event (step_end_envelope run_id n probe) = true
    ∧ is_screenshot_event (step_end_envelope run_id n probe) = false := by
  cases probe <;> exact ⟨rfl, rfl⟩

/-- The model-output block contributes no step-end events. -/
theorem count_step_end_model_block (run_id : String) (n : Int) (l : List ModelOutputDump) :
    ((l.map (model_output_envelope run_id n)).countP is_step_end_event) = 0 := by
  rw [List.countP_eq_zero]
  intro e he
  rcases List.mem_map.mp he with ⟨d, _, rfl⟩
  simp [(model_output_envelope_kind run_id n d).1]

/-- The action-result block contributes no step-end events. -/
theorem count_step_end_action_block (run_id : String) (n : Int) (l : List ActionResultRec) :
    ((l.filterMap (action_result_envelope run_id n)).countP is_step_end_event) = 0 := by
  rw [List.countP_eq_zero]
  intro e he
  rcases List.mem_filterMap.mp he with ⟨r, _, hr⟩
  simp [(action_result_envelope_kind run_id n r e hr).1]

/-- The model-output block is unaffected by removing screenshot
events. -/
theorem filter_screenshot_model_block (run_id : String) (n : Int) (l : List ModelOutputDump) :
    ((l.map (model_output_envelope run_id n)).filter (fun e => !(is_screenshot_event e))) =
      l.map (model_output_envelope run_id n) := by
  rw [List.filter_eq_self]
  intro e he
  rcases List.mem_map.mp he with ⟨d, _, rfl⟩
  simp [(model_output_envelope_kind run_id n d).2]

/-- The action-result block is unaffected by removing screenshot
events. -/
theorem filter_screenshot_action_block (run_id : String) (n : Int) (l : List ActionResultRec) :
    ((l.filterMap (action_result_envelope run_id n)).filter (fun e => !(is_screenshot_event e))) =
      l.filterMap (action_result_envelope run_id n) := by
  rw [List.filter_eq_self]
  intro e he
  rcases List.mem_filterMap.mp he with ⟨r, _, hr⟩
  simp [(action_result_envelope_kind run_id n r e hr).2]


/-- Claim C9: the step callbacks are independently best-effort: the
step-start callback emits exactly one `step_start` event whatever its
page-state probe does; the step-end callback emits exactly one
`step_end` event for every combination of sub-report outcomes — in
particular when the frame capture raises; and a raised frame capture
changes the emitted events only by removing the screenshot-channel
event, leaving the other three sub-reports and the history counters
untouched. -/
theorem claim_c9_step_reports_best_effort :
    ∀ (run_id : String) (n : Int) (probe : Option PageState)
      (rmo rar : Nat) (obs : StepEndObs),
      ((on_step_start run_id n probe).countP is_step_start_event) = 1
      ∧ ((on_step_end run_id n rmo rar obs).1.countP is_step_end_event) = 1
      ∧ ((on_step_end run_id n rmo rar {obs with screenshot := none}).1.countP
          is_step_end_event) = 1
      ∧ ((on_step_end run_id n rmo rar {obs with screenshot := none}).1 =
          (on_step_end run_id n rmo rar obs).1.filter (fun e => !(is_screenshot_event e)))
      ∧ ((on_step_end run_id n rmo rar {obs with screenshot := none}).2 =
          (on_step_end run_id n rmo rar obs).2) := by
  intro run_id n probe rmo rar obs
  obtain ⟨mo, ar, sc, ps⟩ := obs
  have hcount : ∀ (sc' : Option ScreenshotPayload),
      ((on_step_end run_id n rmo rar ⟨mo, ar, sc', ps⟩).1.countP is_step_end_event) = 1 := by
    intro sc'
    cases mo <;> cases ar <;> cases sc' <;>
      (simp only [on_step_end, List.countP_append, count_step_end_model_block,
        count_step_end_action_block]
       simp [List.countP_cons, (screenshot_envelope_kind run_id n _).1,
        (step_end_envelope_kind run_id n ps).1])
  refine ⟨?_, hcount sc, hcount none, ?_, ?_⟩
  · cases probe <;> rfl
  · cases mo <;> cases ar <;> cases sc <;>
      (simp only [on_step_end, List.filter_append, filter_screenshot_model_block,
        filter_screenshot_action_block]
       simp [List.filter_cons, (screenshot_envelope_kind run_id n _).2,
        (step_end_envelope_kind run_id n ps).2])
  · cases mo <;> cases ar <;> cases sc <;> rfl
